import Mathlib

/-!
# tiny-init.js : default TinyMCE options, guarded by `typeof tinyInit !== 'object'`

Source: `apps/zotonic_mod_editor_tinymce/priv/lib/js/tinymce-4.5.5/tiny-init.js`

The script is one statement,

    if (typeof tinyInit !== 'object')
      tinyInit = { ...object literal... };

run as a classic (sloppy mode) script: `typeof` of an undeclared identifier is
`'undefined'` and raises nothing, and the assignment creates the global when it
does not exist yet.  `tinyInit` is taken to be an ordinary writable global
variable.

The embedding has five layers:

* `JSValue`, `typeOf`, `JSValue.get?`: the JavaScript values the script can meet
  and build, compared structurally;
* `defaultOptions`: the object literal of lines 2-74, key by key, in source order;
* `Ambient`, `load`: the ambient namespace (the `tinyInit` binding, plus a log of
  the assignments made to it) and the effect of evaluating the script;
* `callFunction`, `callMethod`: the call of a function value, for the `setup` hook;
* `permittedTags`: the reading of the `valid_elements` whitelist grammar.
-/

namespace TinyInit

/-! ## JavaScript values -/

/-- Expressions that may occur in a function body: literals and identifiers. -/
inductive Expr where
  | strLit (s : String)
  | numLit (n : Int)
  | ident (name : String)
  deriving Repr, DecidableEq

/-- Statements that may occur in a function body. -/
inductive Stmt where
  /-- The statement `return e;`. -/
  | returnStmt (e : Expr)
  /-- The statement `throw e;`. -/
  | throwStmt (e : Expr)
  /-- The statement `tinyInit = e;`. -/
  | assignGlobal (e : Expr)
  /-- The statement `target.key = e;`, with `target` a parameter name or `tinyInit`. -/
  | setMember (target : String) (key : String) (e : Expr)
  deriving Repr, DecidableEq

/-- JavaScript values. Numbers carry an integer payload: the only number literals of
the script are `100`, `10` and `400`, and `typeof` does not look at the payload. -/
inductive JSValue where
  | undefined
  | null
  | boolean (b : Bool)
  | number (n : Int)
  | string (s : String)
  | symbol (description : String)
  | bigint (n : Int)
  | array (items : List JSValue)
  | object (props : List (String × JSValue))
  | function (params : List String) (body : List Stmt)
  deriving Repr

/-- The `typeof` operator on a value (ECMAScript, table of typeof results). -/
def typeOf : JSValue → String
  | .undefined => "undefined"
  | .null => "object"
  | .boolean _ => "boolean"
  | .number _ => "number"
  | .string _ => "string"
  | .symbol _ => "symbol"
  | .bigint _ => "bigint"
  | .array _ => "object"
  | .object _ => "object"
  | .function _ _ => "function"

/-- Property read `v[key]` on an object value; `none` when the key is absent or the
value is not a plain object. -/
def JSValue.get? : JSValue → String → Option JSValue
  | .object props, key => props.lookup key
  | _, _ => none

/-- Own property names of an object value, in insertion order. -/
def JSValue.keys : JSValue → List String
  | .object props => props.map Prod.fst
  | _ => []

/-! ## The object literal -/

/-- Lines 8-11: the `toolbar` array. -/
def toolbar : JSValue :=
  .array [
    .string "styleselect | bold italic | alignleft aligncenter alignright | bullist numlist outdent indent | ltr rtl | removeformat",
    .string "link unlink | zlink zmedia | code"
  ]

/-- Lines 19-36: the `valid_elements` string, a concatenation of eighteen literals. -/
def valid_elements : String :=
  "@[class|style|title|dir<ltr?rtl|lang|xml::lang],"
  ++ "a[rel|rev|charset|hreflang|tabindex|accesskey|type|name|href|target|title],"
  ++ "strong/b,em/i,strike,u,"
  ++ "#p,-ol[type|compact],-ul[type|compact],-li,br,img[longdesc|usemap|"
  ++ "src|border|alt=|title|hspace|vspace|width|height|align],-sub,-sup,"
  ++ "-blockquote,-table[border=0|cellspacing|cellpadding|width|frame|rules|"
  ++ "height|align|summary|bgcolor|background|bordercolor],-tr[rowspan|width|"
  ++ "height|align|valign|bgcolor|background|bordercolor],tbody,thead,tfoot,"
  ++ "#td[colspan|rowspan|width|height|align|valign|bgcolor|background|bordercolor|scope],"
  ++ "#th[colspan|rowspan|width|height|align|valign|scope],caption,-div,"
  ++ "-span,-code,-pre,address,-h1,-h2,-h3,-h4,-h5,-h6,hr[size|noshade],"
  ++ "dd,dl,dt,cite,abbr,del[datetime|cite],ins[datetime|cite],"
  ++ "map[name],area[shape|coords|href|alt|target],bdo,"
  ++ "col[align|char|charoff|span|valign|width],colgroup[align|char|charoff|span|valign|width],"
  ++ "dfn,kbd,legend,"
  ++ "q[cite],samp,small,"
  ++ "tt,var,big,"
  ++ "section,header,nav,article,footer,audio,video"

/-- Lines 45-48: the `formats` mapping. -/
def formats : JSValue :=
  .object [
    ("bdo_rtl", .object [("inline", .string "bdo"), ("attributes", .object [("dir", .string "rtl")])]),
    ("bdo_ltr", .object [("inline", .string "bdo"), ("attributes", .object [("dir", .string "ltr")])])
  ]

/-- Lines 50-52: `function(editor) { }`, a body holding a comment only. -/
def setup : JSValue :=
  .function ["editor"] []

/-- Lines 2-74: the object literal assigned to `tinyInit`, keys in source order. -/
def defaultOptions : JSValue :=
  .object [
    ("selector", .string "textarea"),
    ("mode", .string "none"),
    ("theme", .string "modern"),
    ("plugins", .string "compat3x advlist code paste table link zlink zmedia autosave directionality autoresize lists"),
    ("menubar", .string "edit format table tools insert"),
    ("toolbar", toolbar),
    ("content_css", .string "/lib/js/tinymce-4.5.5/zotonic.css,/lib/css/tinymce-zotonic.css"),
    ("valid_elements", .string valid_elements),
    ("relative_urls", .string ""),
    ("remove_script_host", .string ""),
    ("convert_urls", .string ""),
    ("apply_source_formatting", .string ""),
    ("remove_linebreaks", .string "1"),
    ("gecko_spellcheck", .string "1"),
    ("formats", formats),
    ("setup", setup),
    ("paste_auto_cleanup_on_paste", .boolean true),
    ("paste_convert_middot_lists", .boolean true),
    ("paste_remove_spans", .boolean true),
    ("paste_remove_styles", .boolean true),
    ("paste_remove_styles_if_webkit", .boolean true),
    ("paste_strip_class_attributes", .boolean true),
    ("entity_encoding", .string "raw"),
    ("entities", .string "38,amp,60,lt,62,gt"),
    ("accessibility_focus", .string "1"),
    ("tab_focus", .string ":prev,:next"),
    ("wpeditimage_disable_captions", .string ""),
    ("table_row_limit", .number 100),
    ("table_col_limit", .number 10),
    ("autoresize_max_height", .number 400)
  ]

/-! ## The ambient namespace and the script -/

/-- The ambient namespace as far as the script touches it: the `tinyInit` binding
(`none` when the identifier is not bound at all) and the log of the values assigned
to it, most recent first. -/
structure Ambient where
  tinyInit : Option JSValue
  writes : List JSValue
  deriving Repr

/-- The expression `typeof tinyInit`: an unbound identifier gives `'undefined'`. -/
def typeofTinyInit (s : Ambient) : String :=
  match s.tinyInit with
  | none => "undefined"
  | some v => typeOf v

/-- The assignment `tinyInit = v`. -/
def assignTinyInit (v : JSValue) (s : Ambient) : Ambient :=
  { tinyInit := some v, writes := v :: s.writes }

/-- Evaluation of the whole script:
`if (typeof tinyInit !== 'object') tinyInit = {...};`. -/
def load (s : Ambient) : Ambient :=
  if typeofTinyInit s ≠ "object" then assignTinyInit defaultOptions s else s

/-- The script evaluated `n` times in a row. -/
def loadN : Nat → Ambient → Ambient
  | 0, s => s
  | n + 1, s => loadN n (load s)

/-! ## Calling a function value -/

/-- The scope of a running call: the parameters, last declared first, each with its
current value, and the ambient namespace. -/
structure CallState where
  locals : List (String × JSValue)
  ambient : Ambient
  deriving Repr

/-- Parameters bound to arguments, accumulated last declared first; a parameter
without an argument is `undefined`, an argument without a parameter is dropped. -/
def bindParams : List String → List JSValue → List (String × JSValue) → List (String × JSValue)
  | [], _, acc => acc
  | p :: ps, [], acc => bindParams ps [] ((p, .undefined) :: acc)
  | p :: ps, a :: rest, acc => bindParams ps rest ((p, a) :: acc)

/-- The assignment `obj[key] = v` on a property list: replace in place, else append. -/
def setKey (key : String) (v : JSValue) : List (String × JSValue) → List (String × JSValue)
  | [] => [(key, v)]
  | (k, w) :: rest => if k = key then (k, v) :: rest else (k, w) :: setKey key v rest

/-- The value of an expression; an unresolvable identifier throws. -/
def evalExpr (e : Expr) (c : CallState) : Except JSValue JSValue :=
  match e with
  | .strLit s => .ok (.string s)
  | .numLit n => .ok (.number n)
  | .ident name =>
    match c.locals.lookup name with
    | some v => .ok v
    | none =>
      match (if name = "tinyInit" then c.ambient.tinyInit else none) with
      | some v => .ok v
      | none => .error (.string ("ReferenceError: " ++ name ++ " is not defined"))

/-- The store `target.key = v`: on an object the property is set, on `undefined` and
`null` a TypeError is thrown, on any other value nothing is recorded. -/
def storeMember (holder : JSValue) (key : String) (v : JSValue) : Except JSValue JSValue :=
  match holder with
  | .object props => .ok (.object (setKey key v props))
  | .undefined => .error (.string "TypeError: cannot set property of undefined")
  | .null => .error (.string "TypeError: cannot set property of null")
  | other => .ok other

/-- One statement of a function body. `some v` is the value of a `return`, `none`
is normal completion. -/
def execStmt (st : Stmt) (c : CallState) : Except JSValue (Option JSValue × CallState) :=
  match st with
  | .returnStmt e => do
    let v ← evalExpr e c
    pure (some v, c)
  | .throwStmt e => do
    let v ← evalExpr e c
    throw v
  | .assignGlobal e => do
    let v ← evalExpr e c
    pure (none, { c with ambient := assignTinyInit v c.ambient })
  | .setMember target key e => do
    let v ← evalExpr e c
    match c.locals.lookup target with
    | some holder => do
      let holder2 ← storeMember holder key v
      pure (none, { c with locals := setKey target holder2 c.locals })
    | none =>
      match (if target = "tinyInit" then c.ambient.tinyInit else none) with
      | some holder => do
        let holder2 ← storeMember holder key v
        pure (none, { c with ambient := { c.ambient with tinyInit := some holder2 } })
      | none => throw (.string ("ReferenceError: " ++ target ++ " is not defined"))

/-- The statements of a function body in order, up to the first `return` or `throw`. -/
def execBody : List Stmt → CallState → Except JSValue (Option JSValue × CallState)
  | [], c => pure (none, c)
  | st :: rest, c => do
    let (r, c2) ← execStmt st c
    match r with
    | some v => pure (some v, c2)
    | none => execBody rest c2

/-- The outcome of a call: the returned value, the arguments as the call left them,
and the ambient namespace as the call left it. -/
structure CallResult where
  value : JSValue
  args : List JSValue
  ambient : Ambient
  deriving Repr

/-- The call `f(args...)` in ambient namespace `s`. A body that ends without
`return` yields `undefined`; calling a value that is not a function throws. -/
def callFunction (f : JSValue) (args : List JSValue) (s : Ambient) : Except JSValue CallResult :=
  match f with
  | .function params body => do
    let (r, c) ← execBody body { locals := bindParams params args [], ambient := s }
    let finalArgs := ((c.locals.reverse.map Prod.snd).take args.length) ++ args.drop params.length
    pure { value := r.getD .undefined, args := finalArgs, ambient := c.ambient }
  | _ => throw (.string "TypeError: not a function")

/-- The call `obj.key(args...)`; a missing property reads as `undefined`. -/
def callMethod (obj : JSValue) (key : String) (args : List JSValue) (s : Ambient) :
    Except JSValue CallResult :=
  callFunction ((obj.get? key).getD .undefined) args s

/-! ## The whitelist grammar of `valid_elements` -/

/-- Modelled from the spec: the pieces of a character list between occurrences of a
separator (the editor engine that parses `valid_elements` is third-party code
outside `tiny-init.js`). -/
def splitOnChar (sep : Char) : List Char → List (List Char)
  | [] => [[]]
  | c :: cs =>
    if c = sep then [] :: splitOnChar sep cs
    else
      match splitOnChar sep cs with
      | [] => [[c]]
      | w :: ws => (c :: w) :: ws

/-- Modelled from the spec: a whitelist rule without its leading `#` or `-` marker. -/
def dropMarker : List Char → List Char
  | '#' :: cs => cs
  | '-' :: cs => cs
  | cs => cs

/-- Modelled from the spec: a whitelist rule without its trailing `[...]` attribute
list. -/
def dropAttributes (rule : List Char) : List Char :=
  if rule.getLast? = some ']' then rule.takeWhile (fun c => c != '[') else rule

/-- Modelled from the spec: the element names of one whitelist rule, what remains
after the marker and the attribute list are dropped, split on `/`. -/
def ruleNames (rule : List Char) : List String :=
  (splitOnChar '/' (dropAttributes (dropMarker rule))).map String.mk

/-- Modelled from the spec: the tags a `valid_elements` string lists as permitted,
the element names of its comma-separated rules. -/
def permittedTags (s : String) : List String :=
  ((splitOnChar ',' s.data).map ruleNames).flatten

/-! ## Properties of the guard -/

/-- The guard fails on every value whose `typeof` is `'object'`: the script is then
the identity on the ambient namespace. -/
theorem load_of_object (s : Ambient) (h : typeofTinyInit s = "object") : load s = s := by
  simp [load, h]

/-- The guard passes on every other binding: the script then assigns the literal. -/
theorem load_of_not_object (s : Ambient) (h : typeofTinyInit s ≠ "object") :
    load s = assignTinyInit defaultOptions s := by
  simp [load, h]

/-- After the script has run, `typeof tinyInit` is `'object'`. -/
theorem typeof_after_load (s : Ambient) : typeofTinyInit (load s) = "object" := by
  by_cases h : typeofTinyInit s = "object"
  · rw [load_of_object s h]; exact h
  · rw [load_of_not_object s h]; rfl

/-- Running the script any positive number of times is running it once. -/
theorem loadN_succ (n : Nat) (s : Ambient) : loadN (n + 1) s = load s := by
  induction n generalizing s with
  | zero => rfl
  | succ k ih =>
    show loadN (k + 1) (load s) = load s
    rw [ih (load s)]
    exact load_of_object (load s) (typeof_after_load s)

/-- One run of the script adds at most one entry to the log of assignments. -/
theorem load_writes_length (s : Ambient) : (load s).writes.length ≤ s.writes.length + 1 := by
  by_cases h : typeofTinyInit s = "object"
  · rw [load_of_object s h]; exact Nat.le_succ _
  · rw [load_of_not_object s h]; exact Nat.le_refl _

/-! ## The claims -/

set_option maxRecDepth 100000

/-- C1: when no `tinyInit` binding exists before load, after load the binding exists
and holds the default options record; that record has the keys selector, mode, theme,
plugins, menubar, toolbar, valid_elements, formats and setup, its theme is "modern",
its table_row_limit is 100 and its autoresize_max_height is 400. -/
theorem load_unbound_installs_defaults (s : Ambient) (h : s.tinyInit = none) :
    ∃ rec : JSValue, (load s).tinyInit = some rec ∧ rec = defaultOptions ∧
      (∀ k ∈ ["selector", "mode", "theme", "plugins", "menubar", "toolbar",
          "valid_elements", "formats", "setup"], k ∈ rec.keys ∧ (rec.get? k).isSome = true) ∧
      rec.get? "theme" = some (.string "modern") ∧
      rec.get? "table_row_limit" = some (.number 100) ∧
      rec.get? "autoresize_max_height" = some (.number 400) := by
  have hty : typeofTinyInit s ≠ "object" := by
    simp [typeofTinyInit, h]
  refine ⟨defaultOptions, ?_, rfl, ?_, rfl, rfl, rfl⟩
  · rw [load_of_not_object s hty]; rfl
  · decide

/-- Witness of C1 at the ambient namespace with no binding and an empty log. -/
theorem load_unbound_installs_defaults_witness :
    (Ambient.mk none []).tinyInit = none ∧
    ∃ rec : JSValue, (load (Ambient.mk none [])).tinyInit = some rec ∧ rec = defaultOptions ∧
      (∀ k ∈ ["selector", "mode", "theme", "plugins", "menubar", "toolbar",
          "valid_elements", "formats", "setup"], k ∈ rec.keys ∧ (rec.get? k).isSome = true) ∧
      rec.get? "theme" = some (.string "modern") ∧
      rec.get? "table_row_limit" = some (.number 100) ∧
      rec.get? "autoresize_max_height" = some (.number 400) :=
  ⟨rfl, load_unbound_installs_defaults (Ambient.mk none []) rfl⟩

/-- C2: when `tinyInit` is bound to an options record (an object value) before load,
load leaves the ambient namespace as it was: the binding after load is the same
record, with the same keys and values, and nothing was assigned. -/
theorem load_keeps_options_record (s : Ambient) (props : List (String × JSValue))
    (h : s.tinyInit = some (.object props)) :
    load s = s ∧ (load s).tinyInit = some (.object props) ∧ (load s).writes = s.writes := by
  have hty : typeofTinyInit s = "object" := by
    simp [typeofTinyInit, h, typeOf]
  rw [load_of_object s hty]
  exact ⟨rfl, h, rfl⟩

/-- Witness of C2 at a one-key override record. -/
theorem load_keeps_options_record_witness :
    (Ambient.mk (some (.object [("theme", .string "inlite")])) []).tinyInit =
        some (.object [("theme", .string "inlite")]) ∧
    (load (Ambient.mk (some (.object [("theme", .string "inlite")])) []) =
        Ambient.mk (some (.object [("theme", .string "inlite")])) [] ∧
      (load (Ambient.mk (some (.object [("theme", .string "inlite")])) [])).tinyInit =
        some (.object [("theme", .string "inlite")]) ∧
      (load (Ambient.mk (some (.object [("theme", .string "inlite")])) [])).writes =
        (Ambient.mk (some (.object [("theme", .string "inlite")])) []).writes) :=
  ⟨rfl, load_keeps_options_record _ [("theme", .string "inlite")] rfl⟩

/-- C3, as stated, fails: with `tinyInit` bound to the string "custom" before load,
load does assign (the log of assignments gains the default options record) and the
binding after load is the default options record, not the binding before load. -/
theorem load_overwrites_string_binding :
    (Ambient.mk (some (.string "custom")) []).tinyInit = some (.string "custom") ∧
    (load (Ambient.mk (some (.string "custom")) [])).writes = [defaultOptions] ∧
    (load (Ambient.mk (some (.string "custom")) [])).tinyInit = some defaultOptions ∧
    (load (Ambient.mk (some (.string "custom")) [])).writes ≠
      (Ambient.mk (some (.string "custom")) []).writes ∧
    (load (Ambient.mk (some (.string "custom")) [])).tinyInit ≠
      (Ambient.mk (some (.string "custom")) []).tinyInit := by
  have hw : (load (Ambient.mk (some (.string "custom")) [])).writes = [defaultOptions] := rfl
  have hb : (load (Ambient.mk (some (.string "custom")) [])).tinyInit = some defaultOptions := rfl
  refine ⟨rfl, hw, hb, ?_, ?_⟩
  · rw [hw]
    intro h
    exact List.noConfusion h
  · rw [hb]
    intro h
    have hv : defaultOptions = JSValue.string "custom" := Option.some.inj h
    exact JSValue.noConfusion hv

/-- C3, amended: the script assigns `tinyInit` only if `typeof` of the prior binding is
not `'object'`. When `tinyInit` is bound before load to a value whose `typeof` is
`'object'`, load performs no assignment and the ambient namespace after load equals
the one before; when it is bound to a value of any other type, load assigns the
default options record. -/
theorem load_guard_on_bound_value (s : Ambient) (v : JSValue) (h : s.tinyInit = some v) :
    (typeOf v = "object" →
      load s = s ∧ (load s).writes = s.writes ∧ (load s).tinyInit = some v) ∧
    (typeOf v ≠ "object" →
      (load s).writes = defaultOptions :: s.writes ∧
        (load s).tinyInit = some defaultOptions) := by
  have hty : typeofTinyInit s = typeOf v := by
    simp [typeofTinyInit, h]
  constructor
  · intro hv
    rw [load_of_object s (hty.trans hv)]
    exact ⟨rfl, rfl, h⟩
  · intro hv
    rw [load_of_not_object s (fun hs => hv (hty.symm.trans hs))]
    exact ⟨rfl, rfl⟩

/-- Witness of amended C3 at a prior `null` binding. -/
theorem load_guard_on_bound_value_witness :
    (Ambient.mk (some .null) []).tinyInit = some .null ∧
    ((typeOf .null = "object" →
      load (Ambient.mk (some .null) []) = Ambient.mk (some .null) [] ∧
        (load (Ambient.mk (some .null) [])).writes = (Ambient.mk (some .null) []).writes ∧
        (load (Ambient.mk (some .null) [])).tinyInit = some .null) ∧
    (typeOf .null ≠ "object" →
      (load (Ambient.mk (some .null) [])).writes =
          defaultOptions :: (Ambient.mk (some .null) []).writes ∧
        (load (Ambient.mk (some .null) [])).tinyInit = some defaultOptions)) :=
  ⟨rfl, load_guard_on_bound_value (Ambient.mk (some .null) []) .null rfl⟩

/-- C4: load is idempotent. For every ambient namespace, unbound or bound to a value
of any type, loading twice yields the namespace that loading once yields; the second
run assigns nothing; any positive number of loads yields what one load yields, and
over any number of loads at most one assignment is made. -/
theorem load_idempotent (s : Ambient) :
    load (load s) = load s ∧
    (load (load s)).writes = (load s).writes ∧
    (∀ n : Nat, loadN (n + 1) s = load s) ∧
    (∀ n : Nat, (loadN n s).writes.length ≤ s.writes.length + 1) := by
  have h2 : load (load s) = load s := load_of_object (load s) (typeof_after_load s)
  refine ⟨h2, by rw [h2], fun n => loadN_succ n s, ?_⟩
  intro n
  cases n with
  | zero => exact Nat.le_succ _
  | succ k => rw [loadN_succ k s]; exact load_writes_length s

/-- C5: in the default options record, `valid_elements`, read as comma-separated
whitelist rules whose element names are what remains of a rule after its leading `#`
or `-` marker and its trailing attribute list are dropped, split on `/`, lists a,
strong, table, section and video as permitted and lists none of object, embed and
script. -/
theorem valid_elements_permitted_tags :
    ∃ ve : String, defaultOptions.get? "valid_elements" = some (.string ve) ∧
      (∀ t ∈ ["a", "strong", "table", "section", "video"], t ∈ permittedTags ve) ∧
      (∀ t ∈ ["object", "embed", "script"], t ∉ permittedTags ve) :=
  ⟨valid_elements, rfl, by decide, by decide⟩

/-- C6: in the default options record, `toolbar` is an array of exactly two row
strings, the styleselect row first and the link row second. -/
theorem toolbar_two_rows :
    defaultOptions.get? "toolbar" = some (.array [
      .string "styleselect | bold italic | alignleft aligncenter alignright | bullist numlist outdent indent | ltr rtl | removeformat",
      .string "link unlink | zlink zmedia | code"]) :=
  rfl

/-- C7: in the default options record, `entities` is the string "38,amp,60,lt,62,gt"
and `entity_encoding` is the string "raw". -/
theorem entities_and_encoding :
    defaultOptions.get? "entities" = some (.string "38,amp,60,lt,62,gt") ∧
    defaultOptions.get? "entity_encoding" = some (.string "raw") :=
  ⟨rfl, rfl⟩

/-- C8: the default `setup` hook is a no-op. For every editor argument and every
ambient namespace, the call `setup(editor)` on the default options record completes
without throwing, returns `undefined`, and leaves the editor argument and the
ambient namespace, the `tinyInit` binding included, as they were. -/
theorem setup_is_noop (editor : JSValue) (s : Ambient) :
    defaultOptions.get? "setup" = some (.function ["editor"] []) ∧
    callMethod defaultOptions "setup" [editor] s =
      .ok { value := .undefined, args := [editor], ambient := s } :=
  ⟨rfl, rfl⟩

/-- C9: in the default options record, `formats` has exactly the two names bdo_rtl
and bdo_ltr; each is a definition with inline tag bdo and the single attribute dir,
rtl for bdo_rtl and ltr for bdo_ltr; and bdo is among the tags that `valid_elements`
permits. -/
theorem formats_bdo_definitions :
    ∃ f ve, defaultOptions.get? "formats" = some f ∧
      f.keys = ["bdo_rtl", "bdo_ltr"] ∧
      f.get? "bdo_rtl" =
        some (.object [("inline", .string "bdo"), ("attributes", .object [("dir", .string "rtl")])]) ∧
      f.get? "bdo_ltr" =
        some (.object [("inline", .string "bdo"), ("attributes", .object [("dir", .string "ltr")])]) ∧
      defaultOptions.get? "valid_elements" = some (.string ve) ∧
      "bdo" ∈ permittedTags ve :=
  ⟨formats, valid_elements, rfl, rfl, rfl, rfl, rfl, by decide⟩

/-- C10, as stated, fails: the state a first load leaves behind, reached again on
every later load, has a prior binding whose `typeof` is `'object'`, and yet the
binding after load is the default options record. So "the binding is the default
options record exactly when `typeof` of the prior binding was not `'object'`" does
not hold there. -/
theorem second_load_has_defaults_with_object_prior :
    load (Ambient.mk none []) = Ambient.mk (some defaultOptions) [defaultOptions] ∧
    typeofTinyInit (load (Ambient.mk none [])) = "object" ∧
    (load (load (Ambient.mk none []))).tinyInit = some defaultOptions ∧
    ¬ ((load (load (Ambient.mk none []))).tinyInit = some defaultOptions ↔
        typeofTinyInit (load (Ambient.mk none [])) ≠ "object") := by
  have h1 : load (Ambient.mk none []) = Ambient.mk (some defaultOptions) [defaultOptions] := rfl
  have h2 : typeofTinyInit (load (Ambient.mk none [])) = "object" :=
    typeof_after_load (Ambient.mk none [])
  have h3 : (load (load (Ambient.mk none []))).tinyInit = some defaultOptions := by
    rw [load_of_object (load (Ambient.mk none [])) h2, h1]
  exact ⟨h1, h2, h3, fun hiff => hiff.mp h3 h2⟩

/-- C10, amended: for every ambient namespace before load, unbound or bound to a value
of any type, after load the binding exists and `typeof tinyInit` is `'object'`. Load
assigns the default options record exactly when `typeof` of the prior binding was not
`'object'`, and the binding is then that record; otherwise nothing is assigned and the
binding is the prior value itself, so a prior `null` binding stays `null` and does
not receive the defaults. -/
theorem load_result_by_prior_typeof (s : Ambient) :
    (∃ v, (load s).tinyInit = some v) ∧
    typeofTinyInit (load s) = "object" ∧
    ((load s).writes = defaultOptions :: s.writes ↔ typeofTinyInit s ≠ "object") ∧
    (typeofTinyInit s ≠ "object" → (load s).tinyInit = some defaultOptions) ∧
    (typeofTinyInit s = "object" →
      load s = s ∧ (load s).tinyInit = s.tinyInit ∧ (load s).writes = s.writes) ∧
    (s.tinyInit = some .null →
      (load s).tinyInit = some .null ∧ (load s).tinyInit ≠ some defaultOptions ∧
        (load s).writes = s.writes) := by
  have hty := typeof_after_load s
  refine ⟨?_, hty, ⟨?_, ?_⟩, ?_, ?_, ?_⟩
  · cases hb : (load s).tinyInit with
    | none => simp [typeofTinyInit, hb] at hty
    | some v => exact ⟨v, rfl⟩
  · intro hw hobj
    rw [load_of_object s hobj] at hw
    have hlen := congrArg List.length hw
    simp at hlen
  · intro hn
    rw [load_of_not_object s hn]
    rfl
  · intro hn
    rw [load_of_not_object s hn]
    rfl
  · intro hobj
    rw [load_of_object s hobj]
    exact ⟨rfl, rfl, rfl⟩
  · intro hnull
    have hobj : typeofTinyInit s = "object" := by
      simp [typeofTinyInit, hnull, typeOf]
    rw [load_of_object s hobj, hnull]
    refine ⟨rfl, ?_, rfl⟩
    intro h
    have hv : JSValue.null = defaultOptions := Option.some.inj h
    exact JSValue.noConfusion hv

end TinyInit
